import Mathlib

/-!
Verification of the typed-signal connection core of the `gdext` fork.

The development shallowly embeds the Rust sources:
  * `godot-core/src/registry/signal/signal_connections_registry.rs`
    (hot-reload-safe connection registry; the `safeguards_balanced` variant),
  * `godot-core/src/registry/signal/typed_signal.rs`
    (`TypedSignal::extract`, `inner_connect_godot_fn`),
  * `godot-core/src/registry/signal/variadic.rs`
    (the `SignalReceiver` capability and its generated impls),
  * `godot-macros/src/class/derive_class_extension.rs`
    (the `ClassExtension` derive pipeline).

Host-engine primitives (object validity, connection table, warnings) are the
external collaborators of the registry; they are modelled as explicit state:
  * object identities are natural numbers (`GId`),
  * a weak handle carries the object id plus a unique handle id (`HandleId`),
    so that `drop_weak` disposals can be counted per handle,
  * the host's connection table is the list of (object, signal, callable)
    triples; `is_connected` is membership, `disconnect` removes the first
    matching triple,
  * `godot_warn` increments a counter, `drop_weak` appends the handle id to a
    disposal log, and every issued native disconnect is appended to a
    disconnect log.  These logs are write-only observers: the Rust code has
    exactly one observable effect per log append.
-/

namespace GdextSignals

/-- Godot object instance id (stands for the identity behind a `Gd<Object>`). -/
abbrev GId := Nat

/-- Identity of one particular weak handle produced by `Gd::clone_weak`.
Each `clone_weak` call yields a fresh id, so disposals are countable per handle. -/
abbrev HandleId := Nat

/-- A weak, validity-checkable handle to a host-owned object
(the `Gd<Object>` obtained via `clone_weak` in `store_signal_connection`). -/
structure WeakGd where
  obj : GId
  hid : HandleId
  deriving DecidableEq, Repr

/-- One registry entry, translated from `signal_connections_registry.rs` lines 53-58:
`receiver_object` is an `Option` so pruning can `take` the handle out of its slot;
`signal_name` models the owned `CowStr` copy; `callable` is the opaque `Callable`
(its identity is all the registry ever compares, so it is a bare id here). -/
structure UnsafeConnectHandle where
  receiver_object : Option WeakGd
  signal_name : String
  callable : Nat
  deriving DecidableEq, Repr

/-- A host connection-table row: (receiver object, signal name, callable). -/
abbrev Conn := GId × String × Nat

/-- The host engine's state visible to the registry: which objects are still
alive (`is_instance_valid`), and its connection table (`is_connected` /
`connect` / `disconnect`). -/
structure Host where
  validObjs : List GId
  connections : List Conn
  deriving DecidableEq, Repr

/-- The whole observable state: the once-initialized editor-hint flag
(`IS_EDITOR`), the mutex-guarded backing vector
(`__GODOT_SIGNAL_CONNECTIONS_REGISTRY`), the host, the `godot_warn` counter,
the `drop_weak` disposal log, the native-disconnect log, and the fresh-handle
counter feeding `clone_weak`. -/
structure RegState where
  isEditor : Bool
  registry : List UnsafeConnectHandle
  host : Host
  warnings : Nat
  disposed : List HandleId
  disconnectLog : List Conn
  nextHid : HandleId
  deriving DecidableEq, Repr

/-- The handle ids currently present in a backing vector (entries whose
option slot is full). -/
def registryHids (l : List UnsafeConnectHandle) : List HandleId :=
  l.filterMap (fun e => e.receiver_object.map (fun w => w.hid))

/-- Translation of the private `prune_stale_connections`
(`signal_connections_registry.rs` lines 69-86).  The `retain_mut` closure:
an entry with an emptied slot is removed (nothing to dispose); an entry whose
receiver is no longer a valid instance has its handle taken out of the slot and
`drop_weak`-disposed, and is removed; every other entry is kept.  Returns the
retained entries together with the list of handle ids disposed by this call. -/
def prune_stale_connections (validObjs : List GId) :
    List UnsafeConnectHandle → List UnsafeConnectHandle × List HandleId
  | [] => ([], [])
  | e :: rest =>
    let tail := prune_stale_connections validObjs rest
    match e.receiver_object with
    | none => tail
    | some w =>
      if w.obj ∈ validObjs then (e :: tail.1, tail.2)
      else (tail.1, w.hid :: tail.2)

/-- Decision mirrored from the `retain_mut` closure: `true` exactly when
`prune_stale_connections` removes the entry (emptied slot, or invalid
receiver instance). -/
def isStale (validObjs : List GId) (e : UnsafeConnectHandle) : Bool :=
  match e.receiver_object with
  | none => true
  | some w => decide (w.obj ∉ validObjs)

/-- Translation of `store_signal_connection`
(`signal_connections_registry.rs` lines 90-110).  Outside the editor
(`IS_EDITOR` false) it returns before touching anything.  Otherwise it locks
the registry, prunes stale connections, clones a fresh weak handle to the
receiver and pushes the new entry (weak receiver, owned signal-name copy,
cloned callable). -/
def store_signal_connection (receiver : GId) (signalName : String)
    (callable : Nat) (s : RegState) : RegState :=
  if s.isEditor then
    let pruned := prune_stale_connections s.host.validObjs s.registry
    { s with
      registry := pruned.1 ++
        [{ receiver_object := some { obj := receiver, hid := s.nextHid },
           signal_name := signalName, callable := callable }],
      disposed := s.disposed ++ pruned.2,
      nextHid := s.nextHid + 1 }
  else s

/-- `Object::disconnect` on the host: removes the first matching connection row. -/
def disconnectFirst : List Conn → Conn → List Conn
  | [], _ => []
  | c :: rest, t => if c = t then rest else c :: disconnectFirst rest t

/-- The `for ... in connection_registry.drain(..)` loop body of
`prune_stored_signal_connections` (`signal_connections_registry.rs` lines
133-153), folded over the drained entries in order.  Given the host's valid
objects and its current connection table, returns the final connection table,
the `drop_weak` disposal log of the loop, and the list of native disconnects
issued.  Per entry: emptied slot → `continue`; invalid receiver → dispose and
`continue`; otherwise disconnect exactly when the host still reports the
(receiver, signal, callable) row as connected, then dispose regardless. -/
def drainLoop (validObjs : List GId) :
    List UnsafeConnectHandle → List Conn → List Conn × List HandleId × List Conn
  | [], conns => (conns, [], [])
  | e :: rest, conns =>
    match e.receiver_object with
    | none => drainLoop validObjs rest conns
    | some w =>
      if w.obj ∈ validObjs then
        if (w.obj, e.signal_name, e.callable) ∈ conns then
          let tail := drainLoop validObjs rest
            (disconnectFirst conns (w.obj, e.signal_name, e.callable))
          (tail.1, w.hid :: tail.2.1, (w.obj, e.signal_name, e.callable) :: tail.2.2)
        else
          let tail := drainLoop validObjs rest conns
          (tail.1, w.hid :: tail.2.1, tail.2.2)
      else
        let tail := drainLoop validObjs rest conns
        (tail.1, w.hid :: tail.2.1, tail.2.2)

/-- Translation of `prune_stored_signal_connections`
(`signal_connections_registry.rs` lines 116-154): lock the registry; if it is
empty, return at once (no warning, no disposal, no disconnect); otherwise emit
one `godot_warn`, run the drain loop over every entry, and leave the backing
vector empty. -/
def prune_stored_signal_connections (s : RegState) : RegState :=
  if s.registry.isEmpty then s
  else
    let res := drainLoop s.host.validObjs s.registry s.host.connections
    { s with
      registry := [],
      warnings := s.warnings + 1,
      host := { s.host with connections := res.1 },
      disposed := s.disposed ++ res.2.1,
      disconnectLog := s.disconnectLog ++ res.2.2 }

/-- Translation of `TypedSignal::inner_connect_godot_fn`
(`typed_signal.rs` lines 177-188): builds the callable (name derived from `F`,
then `Callable::from_local_fn`) and registers it with the host's native
connect primitive (`obj.connect(signal_name, &callable)`).  The function body
contains no call to `store_signal_connection`: the registry is not touched. -/
def inner_connect_godot_fn (receiver : GId) (signalName : String)
    (callable : Nat) (s : RegState) : RegState :=
  { s with
    host := { s.host with
      connections := s.host.connections ++ [(receiver, signalName, callable)] } }

/-- Registry-facing operations that can hit the process-wide state during its
lifetime: a `store_signal_connection` call, a standalone run of the private
pruning pass (as executed under the mutex at the start of every store), the
bulk drain `prune_stored_signal_connections`, and the host invalidating an
object (freeing it). -/
inductive RegOp where
  | store (receiver : GId) (signalName : String) (callable : Nat)
  | prune
  | drain
  | free (g : GId)
  deriving DecidableEq, Repr

/-- One operation step on the observable state. -/
def stepOp (s : RegState) : RegOp → RegState
  | .store r n c => store_signal_connection r n c s
  | .prune =>
    let pruned := prune_stale_connections s.host.validObjs s.registry
    { s with registry := pruned.1, disposed := s.disposed ++ pruned.2 }
  | .drain => prune_stored_signal_connections s
  | .free g => { s with host := { s.host with validObjs := s.host.validObjs.erase g } }

/-- Run a sequence of operations left to right. -/
def runOps (s : RegState) : List RegOp → RegState
  | [] => s
  | op :: rest => runOps (stepOp s op) rest

/-- Process start: the registry statics are created empty
(`Mutex::new(Vec::new())`), `IS_EDITOR` resolves to the given editor hint, no
warning has been emitted, no handle exists or has been disposed.  The host
starts with the given live objects and connection table. -/
def initState (isEd : Bool) (validObjs : List GId) (conns : List Conn) : RegState :=
  { isEditor := isEd
    registry := []
    host := { validObjs := validObjs, connections := conns }
    warnings := 0
    disposed := []
    disconnectLog := []
    nextHid := 0 }

end GdextSignals

namespace GdextSignals

/-- Model of `TypedSignal` (`typed_signal.rs` lines 65-70): the owning object
(its identity) and the signal name.  The phantom parameter-tuple marker has no
runtime content and is omitted. -/
structure TypedSignalModel where
  object : GId
  name : String
  deriving DecidableEq, Repr

/-- The message of the `panic!` in `TypedSignal::extract`
(`typed_signal.rs` lines 79-82). -/
def extractPanicMsg (signalName : String) : String :=
  "signals()." ++ signalName ++
    "() call failed; signals() allows only one signal configuration at a time"

/-- Translation of `TypedSignal::extract` (`typed_signal.rs` lines 74-86):
`obj.take()` empties the accessor's option slot; if the slot was already
empty, the call panics (modelled as `Except.error` with the panic message);
otherwise the taken object and the static signal name form the new handle via
`TypedSignal::new`, and the slot is left empty (`none`). -/
def extract (slot : Option GId) (signalName : String) :
    Except String (TypedSignalModel × Option GId) :=
  match slot with
  | none => Except.error (extractPanicMsg signalName)
  | some o => Except.ok ({ object := o, name := signalName }, none)

/-- The three receiver-slot shapes of the `SignalReceiver` trait
(variadic.rs lines 19-28): `()` for global/associated functions, `&mut C` for
`&mut self` methods, `&C` for `&self` methods. -/
inductive ReceiverKind where
  | noInstance
  | mutSelf
  | refSelf
  deriving DecidableEq, Repr

/-- The arities at which `impl_signal_recipient!` is invoked, one list entry
per invocation at variadic.rs lines 114-124; the value is the number of
`argN: PN` pairs passed to the invocation. -/
def invocationArities : List Nat :=
  [0, 1, 2, 3, 4, 5, 6, 7, 8, 9, 10]

/-- The (receiver shape, arity) pairs at which a `SignalReceiver` impl is
generated: each invocation of the `impl_signal_recipient!` body emits one impl
for `()` (lines 86-92), one for `&mut C` (lines 95-101) and one for `&C`
(lines 104-110). -/
def signalReceiverImpls : List (ReceiverKind × Nat) :=
  invocationArities.flatMap (fun n =>
    [(ReceiverKind.noInstance, n), (ReceiverKind.mutSelf, n), (ReceiverKind.refSelf, n)])

/-- `SignalReceiver` impl for global/associated functions at arity 0 (variadic.rs lines 86-92). -/
def callNone0 {R : Type} (f : Unit → R) (_inst : Unit) (_args : Unit) : R :=
  f ()

/-- `SignalReceiver` impl for `&mut self` methods at arity 0 (variadic.rs lines 95-101). -/
def callMut0 {C R : Type} (f : C → R) (inst : C) (_args : Unit) : R :=
  f inst

/-- `SignalReceiver` impl for `&self` methods at arity 0 (variadic.rs lines 104-110). -/
def callRef0 {C R : Type} (f : C → R) (inst : C) (_args : Unit) : R :=
  f inst

/-- `SignalReceiver` impl for global/associated functions at arity 1 (variadic.rs lines 86-92). -/
def callNone1 {R P0 : Type} (f : P0 → R) (_inst : Unit) : P0 → R :=
  fun a0 => f a0

/-- `SignalReceiver` impl for `&mut self` methods at arity 1 (variadic.rs lines 95-101). -/
def callMut1 {C R P0 : Type} (f : C → P0 → R) (inst : C) : P0 → R :=
  fun a0 => f inst a0

/-- `SignalReceiver` impl for `&self` methods at arity 1 (variadic.rs lines 104-110). -/
def callRef1 {C R P0 : Type} (f : C → P0 → R) (inst : C) : P0 → R :=
  fun a0 => f inst a0

/-- `SignalReceiver` impl for global/associated functions at arity 2 (variadic.rs lines 86-92). -/
def callNone2 {R P0 P1 : Type} (f : P0 → P1 → R) (_inst : Unit) : P0 × P1 → R :=
  fun (a0, a1) => f a0 a1

/-- `SignalReceiver` impl for `&mut self` methods at arity 2 (variadic.rs lines 95-101). -/
def callMut2 {C R P0 P1 : Type} (f : C → P0 → P1 → R) (inst : C) : P0 × P1 → R :=
  fun (a0, a1) => f inst a0 a1

/-- `SignalReceiver` impl for `&self` methods at arity 2 (variadic.rs lines 104-110). -/
def callRef2 {C R P0 P1 : Type} (f : C → P0 → P1 → R) (inst : C) : P0 × P1 → R :=
  fun (a0, a1) => f inst a0 a1

/-- `SignalReceiver` impl for global/associated functions at arity 3 (variadic.rs lines 86-92). -/
def callNone3 {R P0 P1 P2 : Type} (f : P0 → P1 → P2 → R) (_inst : Unit) : P0 × P1 × P2 → R :=
  fun (a0, a1, a2) => f a0 a1 a2

/-- `SignalReceiver` impl for `&mut self` methods at arity 3 (variadic.rs lines 95-101). -/
def callMut3 {C R P0 P1 P2 : Type} (f : C → P0 → P1 → P2 → R) (inst : C) : P0 × P1 × P2 → R :=
  fun (a0, a1, a2) => f inst a0 a1 a2

/-- `SignalReceiver` impl for `&self` methods at arity 3 (variadic.rs lines 104-110). -/
def callRef3 {C R P0 P1 P2 : Type} (f : C → P0 → P1 → P2 → R) (inst : C) : P0 × P1 × P2 → R :=
  fun (a0, a1, a2) => f inst a0 a1 a2

/-- `SignalReceiver` impl for global/associated functions at arity 4 (variadic.rs lines 86-92). -/
def callNone4 {R P0 P1 P2 P3 : Type} (f : P0 → P1 → P2 → P3 → R) (_inst : Unit) : P0 × P1 × P2 × P3 → R :=
  fun (a0, a1, a2, a3) => f a0 a1 a2 a3

/-- `SignalReceiver` impl for `&mut self` methods at arity 4 (variadic.rs lines 95-101). -/
def callMut4 {C R P0 P1 P2 P3 : Type} (f : C → P0 → P1 → P2 → P3 → R) (inst : C) : P0 × P1 × P2 × P3 → R :=
  fun (a0, a1, a2, a3) => f inst a0 a1 a2 a3

/-- `SignalReceiver` impl for `&self` methods at arity 4 (variadic.rs lines 104-110). -/
def callRef4 {C R P0 P1 P2 P3 : Type} (f : C → P0 → P1 → P2 → P3 → R) (inst : C) : P0 × P1 × P2 × P3 → R :=
  fun (a0, a1, a2, a3) => f inst a0 a1 a2 a3

/-- `SignalReceiver` impl for global/associated functions at arity 5 (variadic.rs lines 86-92). -/
def callNone5 {R P0 P1 P2 P3 P4 : Type} (f : P0 → P1 → P2 → P3 → P4 → R) (_inst : Unit) : P0 × P1 × P2 × P3 × P4 → R :=
  fun (a0, a1, a2, a3, a4) => f a0 a1 a2 a3 a4

/-- `SignalReceiver` impl for `&mut self` methods at arity 5 (variadic.rs lines 95-101). -/
def callMut5 {C R P0 P1 P2 P3 P4 : Type} (f : C → P0 → P1 → P2 → P3 → P4 → R) (inst : C) : P0 × P1 × P2 × P3 × P4 → R :=
  fun (a0, a1, a2, a3, a4) => f inst a0 a1 a2 a3 a4

/-- `SignalReceiver` impl for `&self` methods at arity 5 (variadic.rs lines 104-110). -/
def callRef5 {C R P0 P1 P2 P3 P4 : Type} (f : C → P0 → P1 → P2 → P3 → P4 → R) (inst : C) : P0 × P1 × P2 × P3 × P4 → R :=
  fun (a0, a1, a2, a3, a4) => f inst a0 a1 a2 a3 a4

/-- `SignalReceiver` impl for global/associated functions at arity 6 (variadic.rs lines 86-92). -/
def callNone6 {R P0 P1 P2 P3 P4 P5 : Type} (f : P0 → P1 → P2 → P3 → P4 → P5 → R) (_inst : Unit) : P0 × P1 × P2 × P3 × P4 × P5 → R :=
  fun (a0, a1, a2, a3, a4, a5) => f a0 a1 a2 a3 a4 a5

/-- `SignalReceiver` impl for `&mut self` methods at arity 6 (variadic.rs lines 95-101). -/
def callMut6 {C R P0 P1 P2 P3 P4 P5 : Type} (f : C → P0 → P1 → P2 → P3 → P4 → P5 → R) (inst : C) : P0 × P1 × P2 × P3 × P4 × P5 → R :=
  fun (a0, a1, a2, a3, a4, a5) => f inst a0 a1 a2 a3 a4 a5

/-- `SignalReceiver` impl for `&self` methods at arity 6 (variadic.rs lines 104-110). -/
def callRef6 {C R P0 P1 P2 P3 P4 P5 : Type} (f : C → P0 → P1 → P2 → P3 → P4 → P5 → R) (inst : C) : P0 × P1 × P2 × P3 × P4 × P5 → R :=
  fun (a0, a1, a2, a3, a4, a5) => f inst a0 a1 a2 a3 a4 a5

/-- `SignalReceiver` impl for global/associated functions at arity 7 (variadic.rs lines 86-92). -/
def callNone7 {R P0 P1 P2 P3 P4 P5 P6 : Type} (f : P0 → P1 → P2 → P3 → P4 → P5 → P6 → R) (_inst : Unit) : P0 × P1 × P2 × P3 × P4 × P5 × P6 → R :=
  fun (a0, a1, a2, a3, a4, a5, a6) => f a0 a1 a2 a3 a4 a5 a6

/-- `SignalReceiver` impl for `&mut self` methods at arity 7 (variadic.rs lines 95-101). -/
def callMut7 {C R P0 P1 P2 P3 P4 P5 P6 : Type} (f : C → P0 → P1 → P2 → P3 → P4 → P5 → P6 → R) (inst : C) : P0 × P1 × P2 × P3 × P4 × P5 × P6 → R :=
  fun (a0, a1, a2, a3, a4, a5, a6) => f inst a0 a1 a2 a3 a4 a5 a6

/-- `SignalReceiver` impl for `&self` methods at arity 7 (variadic.rs lines 104-110). -/
def callRef7 {C R P0 P1 P2 P3 P4 P5 P6 : Type} (f : C → P0 → P1 → P2 → P3 → P4 → P5 → P6 → R) (inst : C) : P0 × P1 × P2 × P3 × P4 × P5 × P6 → R :=
  fun (a0, a1, a2, a3, a4, a5, a6) => f inst a0 a1 a2 a3 a4 a5 a6

/-- `SignalReceiver` impl for global/associated functions at arity 8 (variadic.rs lines 86-92). -/
def callNone8 {R P0 P1 P2 P3 P4 P5 P6 P7 : Type} (f : P0 → P1 → P2 → P3 → P4 → P5 → P6 → P7 → R) (_inst : Unit) : P0 × P1 × P2 × P3 × P4 × P5 × P6 × P7 → R :=
  fun (a0, a1, a2, a3, a4, a5, a6, a7) => f a0 a1 a2 a3 a4 a5 a6 a7

/-- `SignalReceiver` impl for `&mut self` methods at arity 8 (variadic.rs lines 95-101). -/
def callMut8 {C R P0 P1 P2 P3 P4 P5 P6 P7 : Type} (f : C → P0 → P1 → P2 → P3 → P4 → P5 → P6 → P7 → R) (inst : C) : P0 × P1 × P2 × P3 × P4 × P5 × P6 × P7 → R :=
  fun (a0, a1, a2, a3, a4, a5, a6, a7) => f inst a0 a1 a2 a3 a4 a5 a6 a7

/-- `SignalReceiver` impl for `&self` methods at arity 8 (variadic.rs lines 104-110). -/
def callRef8 {C R P0 P1 P2 P3 P4 P5 P6 P7 : Type} (f : C → P0 → P1 → P2 → P3 → P4 → P5 → P6 → P7 → R) (inst : C) : P0 × P1 × P2 × P3 × P4 × P5 × P6 × P7 → R :=
  fun (a0, a1, a2, a3, a4, a5, a6, a7) => f inst a0 a1 a2 a3 a4 a5 a6 a7

/-- `SignalReceiver` impl for global/associated functions at arity 9 (variadic.rs lines 86-92). -/
def callNone9 {R P0 P1 P2 P3 P4 P5 P6 P7 P8 : Type} (f : P0 → P1 → P2 → P3 → P4 → P5 → P6 → P7 → P8 → R) (_inst : Unit) : P0 × P1 × P2 × P3 × P4 × P5 × P6 × P7 × P8 → R :=
  fun (a0, a1, a2, a3, a4, a5, a6, a7, a8) => f a0 a1 a2 a3 a4 a5 a6 a7 a8

/-- `SignalReceiver` impl for `&mut self` methods at arity 9 (variadic.rs lines 95-101). -/
def callMut9 {C R P0 P1 P2 P3 P4 P5 P6 P7 P8 : Type} (f : C → P0 → P1 → P2 → P3 → P4 → P5 → P6 → P7 → P8 → R) (inst : C) : P0 × P1 × P2 × P3 × P4 × P5 × P6 × P7 × P8 → R :=
  fun (a0, a1, a2, a3, a4, a5, a6, a7, a8) => f inst a0 a1 a2 a3 a4 a5 a6 a7 a8

/-- `SignalReceiver` impl for `&self` methods at arity 9 (variadic.rs lines 104-110). -/
def callRef9 {C R P0 P1 P2 P3 P4 P5 P6 P7 P8 : Type} (f : C → P0 → P1 → P2 → P3 → P4 → P5 → P6 → P7 → P8 → R) (inst : C) : P0 × P1 × P2 × P3 × P4 × P5 × P6 × P7 × P8 → R :=
  fun (a0, a1, a2, a3, a4, a5, a6, a7, a8) => f inst a0 a1 a2 a3 a4 a5 a6 a7 a8

/-- `SignalReceiver` impl for global/associated functions at arity 10 (variadic.rs lines 86-92). -/
def callNone10 {R P0 P1 P2 P3 P4 P5 P6 P7 P8 P9 : Type} (f : P0 → P1 → P2 → P3 → P4 → P5 → P6 → P7 → P8 → P9 → R) (_inst : Unit) : P0 × P1 × P2 × P3 × P4 × P5 × P6 × P7 × P8 × P9 → R :=
  fun (a0, a1, a2, a3, a4, a5, a6, a7, a8, a9) => f a0 a1 a2 a3 a4 a5 a6 a7 a8 a9

/-- `SignalReceiver` impl for `&mut self` methods at arity 10 (variadic.rs lines 95-101). -/
def callMut10 {C R P0 P1 P2 P3 P4 P5 P6 P7 P8 P9 : Type} (f : C → P0 → P1 → P2 → P3 → P4 → P5 → P6 → P7 → P8 → P9 → R) (inst : C) : P0 × P1 × P2 × P3 × P4 × P5 × P6 × P7 × P8 × P9 → R :=
  fun (a0, a1, a2, a3, a4, a5, a6, a7, a8, a9) => f inst a0 a1 a2 a3 a4 a5 a6 a7 a8 a9

/-- `SignalReceiver` impl for `&self` methods at arity 10 (variadic.rs lines 104-110). -/
def callRef10 {C R P0 P1 P2 P3 P4 P5 P6 P7 P8 P9 : Type} (f : C → P0 → P1 → P2 → P3 → P4 → P5 → P6 → P7 → P8 → P9 → R) (inst : C) : P0 × P1 × P2 × P3 × P4 × P5 × P6 × P7 × P8 × P9 → R :=
  fun (a0, a1, a2, a3, a4, a5, a6, a7, a8, a9) => f inst a0 a1 a2 a3 a4 a5 a6 a7 a8 a9

end GdextSignals

namespace GdextDerive

/-- Token stream produced by the derive; `quote! {}` is the empty list. -/
abbrev TokenStream := List String

/-- Shape of a venial struct's field list: unit struct, tuple struct, or
named fields (the named-field payload stays abstract in the type `F`). -/
inductive VenialFieldsShape (F : Type) where
  | unit
  | tuple (arity : Nat)
  | named (fields : List F)

/-- A venial struct: its name and its field-list shape. -/
structure VenialStruct (F : Type) where
  name : String
  fields : VenialFieldsShape F

/-- A venial item: either a struct, or anything else (enum, union, ...),
which `Item::as_struct` rejects. -/
inductive VenialItem (F : Type) where
  | struct (s : VenialStruct F)
  | other

/-- `venial::Item::as_struct`. -/
def as_struct {F : Type} : VenialItem F → Option (VenialStruct F)
  | .struct s => some s
  | .other => none

/-- Translation of `named_fields` (`fields.rs` lines 48-62): a unit struct
yields no fields, a tuple struct is rejected with an error, a named-field
struct yields its fields. -/
def named_fields {F : Type} (s : VenialStruct F) : Except String (List F) :=
  match s.fields with
  | .unit => Except.ok []
  | .tuple _ => Except.error "#[derive(ClassExtension)] is not supported for tuple structs"
  | .named fs => Except.ok fs

/-- Translation of `parse_fields` (`derive_class_extension.rs` lines 41-103):
each named field is processed in order and processing may abort with an error
(the `?` operators on the attribute parsers).  The per-field attribute
machinery (`KvParser`, `FieldExport`, `FieldVar`, ...) lives outside the
modelled sources and is abstracted as the `processField` argument; the
`groups`/`deprecations`/`errors` bookkeeping of the returned `Fields` value is
dropped here because the derive discards the whole structure (see
`derive_class_extension`). -/
def parse_fields {F Fld : Type} (processField : F → Except String Fld)
    (namedFields : List F) : Except String (List Fld) :=
  namedFields.mapM processField

/-- Translation of `derive_class_extension`
(`derive_class_extension.rs` lines 16-39): reject non-structs; fetch the
named fields (`?`); parse them (`?`); sort them by group; compute the property
impl for the extension name from the sorted fields — and then return
`ParseResult::Ok(quote! {})`, an empty token stream, discarding the computed
`godot_exports_impl` (and the collected field errors).  `sortFieldsByGroup`
(group_export.rs, a sort whose comparator is stateful) and
`makeClassExtensionPropertyImpl` (defined outside the modelled sources) are
abstracted as arguments, since their results are discarded. -/
def derive_class_extension {F Fld : Type}
    (processField : F → Except String Fld)
    (sortFieldsByGroup : List Fld → List Fld)
    (makeClassExtensionPropertyImpl : String → List Fld → TokenStream)
    (item : VenialItem F) : Except String TokenStream :=
  match as_struct item with
  | none => Except.error "#[derive(ClassExtension)] is only allowed on structs"
  | some ext => do
    let namedFields ← named_fields ext
    let fields ← parse_fields processField namedFields
    let sorted := sortFieldsByGroup fields
    let _godot_exports_impl := makeClassExtensionPropertyImpl ext.name sorted
    pure []

end GdextDerive

namespace GdextSignals

/-- The single-disposal bookkeeping invariant of the registry state: handle
ids present in the backing vector are pairwise distinct, the disposal log is
duplicate-free, no logged handle is still present, and every handle id ever
created is below the fresh-handle counter. -/
def StateInv (s : RegState) : Prop :=
  (registryHids s.registry).Nodup ∧
  s.disposed.Nodup ∧
  (∀ h ∈ s.disposed, h ∉ registryHids s.registry) ∧
  (∀ h ∈ registryHids s.registry, h < s.nextHid) ∧
  (∀ h ∈ s.disposed, h < s.nextHid)

/-- Fixture: a registry entry whose receiver (object 1, handle 0) is alive in
`fixtureState`. -/
def fixtureEntryLive : UnsafeConnectHandle :=
  { receiver_object := some { obj := 1, hid := 0 }, signal_name := "a", callable := 1 }

/-- Fixture: a registry entry whose receiver (object 9, handle 1) has been
freed in `fixtureState`. -/
def fixtureEntryStale : UnsafeConnectHandle :=
  { receiver_object := some { obj := 9, hid := 1 }, signal_name := "b", callable := 2 }

/-- Fixture: an editor-mode state with two recorded connections, one to a live
object and one to a freed object. -/
def fixtureState : RegState :=
  { isEditor := true
    registry := [fixtureEntryLive, fixtureEntryStale]
    host := { validObjs := [1], connections := [(1, "a", 1)] }
    warnings := 0
    disposed := []
    disconnectLog := []
    nextHid := 2 }

end GdextSignals

namespace GdextSignals

/-- The retained entries of a pruning pass are exactly the non-stale ones. -/
theorem prune_keep_eq_filter (v : List GId) (l : List UnsafeConnectHandle) :
    (prune_stale_connections v l).1 = l.filter (fun e => !(isStale v e)) := by
  induction l with
  | nil => rfl
  | cons e rest ih =>
    cases h : e.receiver_object with
    | none => simp [prune_stale_connections, List.filter, isStale, h, ih]
    | some w =>
      by_cases hv : w.obj ∈ v
      · simp [prune_stale_connections, List.filter, isStale, h, hv, ih]
      · simp [prune_stale_connections, List.filter, isStale, h, hv, ih]

/-- The handles disposed by a pruning pass are exactly the handles of the
stale entries. -/
theorem prune_disposed_eq_filter (v : List GId) (l : List UnsafeConnectHandle) :
    (prune_stale_connections v l).2 = registryHids (l.filter (isStale v)) := by
  induction l with
  | nil => rfl
  | cons e rest ih =>
    cases h : e.receiver_object with
    | none => simp [prune_stale_connections, registryHids, List.filter, isStale, h, ih]
    | some w =>
      by_cases hv : w.obj ∈ v
      · simp [prune_stale_connections, registryHids, List.filter, isStale, h, hv, ih]
      · simp [prune_stale_connections, registryHids, List.filter, isStale, h, hv, ih]

/-- Kept handles and disposed handles of a pruning pass together are a
permutation of the handles present before the pass. -/
theorem prune_hids_perm (v : List GId) (l : List UnsafeConnectHandle) :
    List.Perm
      (registryHids (prune_stale_connections v l).1 ++ (prune_stale_connections v l).2)
      (registryHids l) := by
  induction l with
  | nil => rfl
  | cons e rest ih =>
    cases h : e.receiver_object with
    | none =>
      simpa [prune_stale_connections, registryHids, List.filterMap_cons, h] using ih
    | some w =>
      by_cases hv : w.obj ∈ v
      · simpa [prune_stale_connections, registryHids, List.filterMap_cons, h, hv] using ih.cons w.hid
      · simp only [prune_stale_connections, registryHids, List.filterMap_cons, h, hv,
          if_neg, Option.map_some]
        refine List.Perm.trans List.perm_middle ?_
        simpa [registryHids] using ih.cons w.hid

/-- The drain loop runs `drop_weak` exactly once per present handle, in entry
order. -/
theorem drainLoop_disposed_eq (v : List GId) (l : List UnsafeConnectHandle)
    (conns : List Conn) : (drainLoop v l conns).2.1 = registryHids l := by
  induction l generalizing conns with
  | nil => rfl
  | cons e rest ih =>
    cases h : e.receiver_object with
    | none => simp [drainLoop, registryHids, List.filterMap_cons, h, ih]
    | some w =>
      by_cases hv : w.obj ∈ v
      · by_cases hc : (w.obj, e.signal_name, e.callable) ∈ conns
        · simp [drainLoop, registryHids, List.filterMap_cons, h, hv, hc, ih]
        · simp [drainLoop, registryHids, List.filterMap_cons, h, hv, hc, ih]
      · simp [drainLoop, registryHids, List.filterMap_cons, h, hv, ih]

end GdextSignals

namespace GdextSignals

/-- Pruning a duplicate-free registry yields duplicate-free kept handles and
disposals, with no handle in both. -/
theorem prune_pair_nodup (v : List GId) (l : List UnsafeConnectHandle)
    (h : (registryHids l).Nodup) :
    (registryHids (prune_stale_connections v l).1).Nodup ∧
    (prune_stale_connections v l).2.Nodup ∧
    (∀ x ∈ (prune_stale_connections v l).2,
      x ∉ registryHids (prune_stale_connections v l).1) := by
  have hnd : (registryHids (prune_stale_connections v l).1
      ++ (prune_stale_connections v l).2).Nodup :=
    (prune_hids_perm v l).nodup_iff.mpr h
  rcases List.nodup_append.mp hnd with ⟨h1, h2, h3⟩
  exact ⟨h1, h2, fun x hx hx' => h3 hx' hx⟩

/-- Every handle surviving or disposed by a pruning pass was present before it. -/
theorem prune_mem_subset (v : List GId) (l : List UnsafeConnectHandle) :
    (∀ x ∈ registryHids (prune_stale_connections v l).1, x ∈ registryHids l) ∧
    (∀ x ∈ (prune_stale_connections v l).2, x ∈ registryHids l) := by
  have hp := prune_hids_perm v l
  exact ⟨fun x hx => hp.subset (List.mem_append_left _ hx),
         fun x hx => hp.subset (List.mem_append_right _ hx)⟩

/-- `store_signal_connection` preserves the single-disposal invariant. -/
theorem store_preserves_inv (r : GId) (n : String) (c : Nat) (s : RegState)
    (h : StateInv s) : StateInv (store_signal_connection r n c s) := by
  obtain ⟨hRN, hDN, hDis, hRlt, hDlt⟩ := h
  by_cases hEd : s.isEditor
  · obtain ⟨hKN, hPN, hPdisK⟩ := prune_pair_nodup s.host.validObjs s.registry hRN
    obtain ⟨hKsub, hPsub⟩ := prune_mem_subset s.host.validObjs s.registry
    have hreg : registryHids (store_signal_connection r n c s).registry
        = registryHids (prune_stale_connections s.host.validObjs s.registry).1
          ++ [s.nextHid] := by
      simp [store_signal_connection, hEd, registryHids]
    have hdisp : (store_signal_connection r n c s).disposed
        = s.disposed ++ (prune_stale_connections s.host.validObjs s.registry).2 := by
      simp [store_signal_connection, hEd]
    have hnext : (store_signal_connection r n c s).nextHid = s.nextHid + 1 := by
      simp [store_signal_connection, hEd]
    rw [StateInv, hreg, hdisp, hnext]
    refine ⟨?_, ?_, ?_, ?_, ?_⟩
    · refine List.nodup_append.mpr ⟨hKN, List.nodup_singleton _, ?_⟩
      intro x hx hx'
      have h1 : x < s.nextHid := hRlt x (hKsub x hx)
      have h2 : x = s.nextHid := by simpa using hx'
      exact Nat.lt_irrefl _ (h2 ▸ h1)
    · refine List.nodup_append.mpr ⟨hDN, hPN, ?_⟩
      intro x hx hx'
      exact hDis x hx (hPsub x hx')
    · intro x hx
      rcases List.mem_append.mp hx with hx | hx
      · intro hx'
        rcases List.mem_append.mp hx' with hx' | hx'
        · exact hDis x hx (hKsub x hx')
        · have h1 : x < s.nextHid := hDlt x hx
          have h2 : x = s.nextHid := by simpa using hx'
          exact Nat.lt_irrefl _ (h2 ▸ h1)
      · intro hx'
        rcases List.mem_append.mp hx' with hx' | hx'
        · exact hPdisK x hx hx'
        · have h1 : x < s.nextHid := hRlt x (hPsub x hx)
          have h2 : x = s.nextHid := by simpa using hx'
          exact Nat.lt_irrefl _ (h2 ▸ h1)
    · intro x hx
      rcases List.mem_append.mp hx with hx | hx
      · exact Nat.lt_succ_of_lt (hRlt x (hKsub x hx))
      · have h2 : x = s.nextHid := by simpa using hx
        exact h2 ▸ Nat.lt_succ_self _
    · intro x hx
      rcases List.mem_append.mp hx with hx | hx
      · exact Nat.lt_succ_of_lt (hDlt x hx)
      · exact Nat.lt_succ_of_lt (hRlt x (hPsub x hx))
  · simpa [store_signal_connection, hEd, StateInv] using ⟨hRN, hDN, hDis, hRlt, hDlt⟩

/-- A standalone pruning pass preserves the single-disposal invariant. -/
theorem prune_preserves_inv (s : RegState) (h : StateInv s) :
    StateInv (stepOp s RegOp.prune) := by
  obtain ⟨hRN, hDN, hDis, hRlt, hDlt⟩ := h
  obtain ⟨hKN, hPN, hPdisK⟩ := prune_pair_nodup s.host.validObjs s.registry hRN
  obtain ⟨hKsub, hPsub⟩ := prune_mem_subset s.host.validObjs s.registry
  simp only [stepOp, StateInv]
  refine ⟨hKN, ?_, ?_, ?_, ?_⟩
  · refine List.nodup_append.mpr ⟨hDN, hPN, ?_⟩
    intro x hx hx'
    exact hDis x hx (hPsub x hx')
  · intro x hx
    rcases List.mem_append.mp hx with hx | hx
    · exact fun hx' => hDis x hx (hKsub x hx')
    · exact fun hx' => hPdisK x hx hx'
  · intro x hx
    exact hRlt x (hKsub x hx)
  · intro x hx
    rcases List.mem_append.mp hx with hx | hx
    · exact hDlt x hx
    · exact hRlt x (hPsub x hx)

/-- The bulk drain preserves the single-disposal invariant. -/
theorem drain_preserves_inv (s : RegState) (h : StateInv s) :
    StateInv (prune_stored_signal_connections s) := by
  obtain ⟨hRN, hDN, hDis, hRlt, hDlt⟩ := h
  by_cases hE : s.registry.isEmpty
  · simpa [prune_stored_signal_connections, hE, StateInv] using ⟨hRN, hDN, hDis, hRlt, hDlt⟩
  · simp only [prune_stored_signal_connections, hE, if_neg, Bool.false_eq_true,
      not_false_iff, StateInv, registryHids, List.filterMap_nil,
      drainLoop_disposed_eq]
    refine ⟨List.nodup_nil, ?_, ?_, ?_, ?_⟩
    · refine List.nodup_append.mpr ⟨hDN, hRN, ?_⟩
      intro x hx hx'
      exact hDis x hx hx'
    · intro x _ hx'
      exact (List.not_mem_nil x) hx'
    · intro x hx
      exact absurd hx (List.not_mem_nil x)
    · intro x hx
      rcases List.mem_append.mp hx with hx | hx
      · exact hDlt x hx
      · exact hRlt x hx

/-- Every operation preserves the single-disposal invariant. -/
theorem stepOp_preserves_inv (s : RegState) (op : RegOp) (h : StateInv s) :
    StateInv (stepOp s op) := by
  cases op with
  | store r n c => exact store_preserves_inv r n c s h
  | prune => exact prune_preserves_inv s h
  | drain => exact drain_preserves_inv s h
  | free g =>
    obtain ⟨hRN, hDN, hDis, hRlt, hDlt⟩ := h
    exact ⟨hRN, hDN, hDis, hRlt, hDlt⟩

/-- Any operation sequence preserves the single-disposal invariant. -/
theorem runOps_preserves_inv (ops : List RegOp) (s : RegState) (h : StateInv s) :
    StateInv (runOps s ops) := by
  induction ops generalizing s with
  | nil => exact h
  | cons op rest ih => exact ih (stepOp s op) (stepOp_preserves_inv s op h)

/-- The process-start state satisfies the single-disposal invariant. -/
theorem initState_inv (isEd : Bool) (v : List GId) (conns : List Conn) :
    StateInv (initState isEd v conns) := by
  refine ⟨List.nodup_nil, List.nodup_nil, ?_, ?_, ?_⟩ <;>
    intro x hx <;> exact absurd hx (List.not_mem_nil x)

/-- In a non-editor process with an empty registry, every operation leaves the
registry empty and the editor flag unset. -/
theorem runOps_non_editor_empty (ops : List RegOp) (s : RegState)
    (hEd : s.isEditor = false) (hReg : s.registry = []) :
    (runOps s ops).registry = [] ∧ (runOps s ops).isEditor = false := by
  induction ops generalizing s with
  | nil => exact ⟨hReg, hEd⟩
  | cons op rest ih =>
    have hEd' : (stepOp s op).isEditor = false := by
      cases op with
      | store r n c => simp [stepOp, store_signal_connection, hEd]
      | prune => simp [stepOp, hEd]
      | drain => simp [stepOp, prune_stored_signal_connections, hReg, hEd]
      | free g => simp [stepOp, hEd]
    have hReg' : (stepOp s op).registry = [] := by
      cases op with
      | store r n c => simp [stepOp, store_signal_connection, hEd, hReg]
      | prune => simp [stepOp, hReg, prune_stale_connections]
      | drain => simp [stepOp, prune_stored_signal_connections, hReg]
      | free g => simp [stepOp, hReg]
    exact ih (stepOp s op) hEd' hReg'

end GdextSignals

namespace GdextSignals

/-- C1: the claim says every connect call in an editor context records the
connection in the process-wide registry before returning.  Evaluating the
translated `inner_connect_godot_fn` at a concrete editor-mode connect call
shows the host's connection table gains the callable while the registry stays
empty: the function registers the callable with the host's native connect
primitive only and never calls `store_signal_connection`, so the host holds a
Rust callable that is absent from the registry. -/
theorem C1_connect_leaves_registry_empty :
    (inner_connect_godot_fn 0 "changed" 7 (initState true [0] [])).host.connections
        = [(0, "changed", 7)] ∧
    (inner_connect_godot_fn 0 "changed" 7 (initState true [0] [])).registry = [] := by
  constructor <;> rfl

/-- C4: the bulk drain is idempotent on the whole observable state: a second
`prune_stored_signal_connections` with no intervening record returns the state
of the first call unchanged — same registry (empty), same warning count (no
second warning), same disposal log (no handle disposed twice), same disconnect
log and host table (no disconnect issued). -/
theorem C4_drain_idempotent (s : RegState) :
    prune_stored_signal_connections (prune_stored_signal_connections s)
      = prune_stored_signal_connections s := by
  by_cases h : s.registry.isEmpty
  · simp [prune_stored_signal_connections, h]
  · simp [prune_stored_signal_connections, h]

end GdextSignals

namespace GdextSignals

/-- C7: `TypedSignal::extract` panics (with the descriptive
one-signal-configuration-at-a-time message naming the signal) exactly when the
accessor's option slot is empty; when the slot is full it takes the object out
of the slot, leaving the slot empty, and returns the handle built from exactly
that object and the given signal name — never a stale or default handle. -/
theorem C7_extract_spec :
    (∀ name : String, extract none name = Except.error (extractPanicMsg name)) ∧
    (∀ (slot : Option GId) (name : String),
      (∃ msg, extract slot name = Except.error msg) ↔ slot = none) ∧
    (∀ (slot : Option GId) (name : String) (o : GId), slot = some o →
      extract slot name = Except.ok ({ object := o, name := name }, none)) := by
  refine ⟨fun name => rfl, ?_, ?_⟩
  · intro slot name
    cases slot with
    | none => exact ⟨fun _ => rfl, fun _ => ⟨extractPanicMsg name, rfl⟩⟩
    | some o =>
      constructor
      · rintro ⟨msg, hmsg⟩
        simp [extract] at hmsg
      · intro h
        exact absurd h (by simp)
  · rintro slot name o rfl
    rfl

/-- C7 witness: a full slot is checked out into a handle for that object and
name (leaving the slot empty), and an already-empty slot panics. -/
theorem C7_extract_witness :
    (some 5 : Option GId) = some 5 ∧
    extract (some 5) "renamed" = Except.ok ({ object := 5, name := "renamed" }, none) ∧
    (∃ msg, extract (none : Option GId) "renamed" = Except.error msg) :=
  ⟨rfl, C7_extract_spec.2.2 (some 5) "renamed" 5 rfl,
   (C7_extract_spec.2.1 (none : Option GId) "renamed").mpr rfl⟩

end GdextSignals

namespace GdextSignals

/-- C5 counterexample: the claim states 9 is the maximum supported arity, but
the generated impls include all three receiver shapes at arity 10 (the last
invocation at variadic.rs line 124 passes ten `argN: PN` pairs), so an arity
strictly greater than 9 is supported. -/
theorem C5_counterexample :
    (ReceiverKind.noInstance, 10) ∈ signalReceiverImpls ∧
    (ReceiverKind.mutSelf, 10) ∈ signalReceiverImpls ∧
    (ReceiverKind.refSelf, 10) ∈ signalReceiverImpls ∧
    9 < 10 := by
  refine ⟨?_, ?_, ?_, by decide⟩ <;> decide

/-- C5 (amended): the `SignalReceiver` capability is implemented for the
no-receiver shape `()`, the immutable-receiver shape `&C` and the
mutable-receiver shape `&mut C` for every arity from 0 up to a supported
maximum of 10 arguments — arity 0 included via the empty tuple, and 10 (not 9)
being the maximum supported arity. -/
theorem C5_receiver_shapes_and_arities (k : ReceiverKind) (n : Nat) :
    (k, n) ∈ signalReceiverImpls ↔ n ≤ 10 := by
  cases k <;> simp [signalReceiverImpls, invocationArities] <;> omega

end GdextSignals

namespace GdextSignals

/-- C6: for every supported arity N and each of the three receiver shapes,
the generated `call` body invokes the underlying function exactly once,
passing the receiver slot (when the shape has one) as the first argument
followed by the N tuple elements in declaration order: `call` applied to the
argument tuple equals the function applied to the receiver and the
components in order, for an arbitrary result type R (Rust discards the
receiver's return value; keeping R arbitrary lets R carry any observable
effect of the single invocation). -/
theorem C6_call_order :
    (∀ (R : Type) (f : Unit → R),
      callNone0 f () () = f ()) ∧
    (∀ (C R : Type) (f : C → R) (c : C),
      callMut0 f c () = f c) ∧
    (∀ (C R : Type) (f : C → R) (c : C),
      callRef0 f c () = f c) ∧
    (∀ (R P0 : Type) (f : P0 → R) (a0 : P0),
      callNone1 f () a0 = f a0) ∧
    (∀ (C R P0 : Type) (f : C → P0 → R) (c : C) (a0 : P0),
      callMut1 f c a0 = f c a0) ∧
    (∀ (C R P0 : Type) (f : C → P0 → R) (c : C) (a0 : P0),
      callRef1 f c a0 = f c a0) ∧
    (∀ (R P0 P1 : Type) (f : P0 → P1 → R) (a0 : P0) (a1 : P1),
      callNone2 f () (a0, a1) = f a0 a1) ∧
    (∀ (C R P0 P1 : Type) (f : C → P0 → P1 → R) (c : C) (a0 : P0) (a1 : P1),
      callMut2 f c (a0, a1) = f c a0 a1) ∧
    (∀ (C R P0 P1 : Type) (f : C → P0 → P1 → R) (c : C) (a0 : P0) (a1 : P1),
      callRef2 f c (a0, a1) = f c a0 a1) ∧
    (∀ (R P0 P1 P2 : Type) (f : P0 → P1 → P2 → R) (a0 : P0) (a1 : P1) (a2 : P2),
      callNone3 f () (a0, a1, a2) = f a0 a1 a2) ∧
    (∀ (C R P0 P1 P2 : Type) (f : C → P0 → P1 → P2 → R) (c : C) (a0 : P0) (a1 : P1) (a2 : P2),
      callMut3 f c (a0, a1, a2) = f c a0 a1 a2) ∧
    (∀ (C R P0 P1 P2 : Type) (f : C → P0 → P1 → P2 → R) (c : C) (a0 : P0) (a1 : P1) (a2 : P2),
      callRef3 f c (a0, a1, a2) = f c a0 a1 a2) ∧
    (∀ (R P0 P1 P2 P3 : Type) (f : P0 → P1 → P2 → P3 → R) (a0 : P0) (a1 : P1) (a2 : P2) (a3 : P3),
      callNone4 f () (a0, a1, a2, a3) = f a0 a1 a2 a3) ∧
    (∀ (C R P0 P1 P2 P3 : Type) (f : C → P0 → P1 → P2 → P3 → R) (c : C) (a0 : P0) (a1 : P1) (a2 : P2) (a3 : P3),
      callMut4 f c (a0, a1, a2, a3) = f c a0 a1 a2 a3) ∧
    (∀ (C R P0 P1 P2 P3 : Type) (f : C → P0 → P1 → P2 → P3 → R) (c : C) (a0 : P0) (a1 : P1) (a2 : P2) (a3 : P3),
      callRef4 f c (a0, a1, a2, a3) = f c a0 a1 a2 a3) ∧
    (∀ (R P0 P1 P2 P3 P4 : Type) (f : P0 → P1 → P2 → P3 → P4 → R) (a0 : P0) (a1 : P1) (a2 : P2) (a3 : P3) (a4 : P4),
      callNone5 f () (a0, a1, a2, a3, a4) = f a0 a1 a2 a3 a4) ∧
    (∀ (C R P0 P1 P2 P3 P4 : Type) (f : C → P0 → P1 → P2 → P3 → P4 → R) (c : C) (a0 : P0) (a1 : P1) (a2 : P2) (a3 : P3) (a4 : P4),
      callMut5 f c (a0, a1, a2, a3, a4) = f c a0 a1 a2 a3 a4) ∧
    (∀ (C R P0 P1 P2 P3 P4 : Type) (f : C → P0 → P1 → P2 → P3 → P4 → R) (c : C) (a0 : P0) (a1 : P1) (a2 : P2) (a3 : P3) (a4 : P4),
      callRef5 f c (a0, a1, a2, a3, a4) = f c a0 a1 a2 a3 a4) ∧
    (∀ (R P0 P1 P2 P3 P4 P5 : Type) (f : P0 → P1 → P2 → P3 → P4 → P5 → R) (a0 : P0) (a1 : P1) (a2 : P2) (a3 : P3) (a4 : P4) (a5 : P5),
      callNone6 f () (a0, a1, a2, a3, a4, a5) = f a0 a1 a2 a3 a4 a5) ∧
    (∀ (C R P0 P1 P2 P3 P4 P5 : Type) (f : C → P0 → P1 → P2 → P3 → P4 → P5 → R) (c : C) (a0 : P0) (a1 : P1) (a2 : P2) (a3 : P3) (a4 : P4) (a5 : P5),
      callMut6 f c (a0, a1, a2, a3, a4, a5) = f c a0 a1 a2 a3 a4 a5) ∧
    (∀ (C R P0 P1 P2 P3 P4 P5 : Type) (f : C → P0 → P1 → P2 → P3 → P4 → P5 → R) (c : C) (a0 : P0) (a1 : P1) (a2 : P2) (a3 : P3) (a4 : P4) (a5 : P5),
      callRef6 f c (a0, a1, a2, a3, a4, a5) = f c a0 a1 a2 a3 a4 a5) ∧
    (∀ (R P0 P1 P2 P3 P4 P5 P6 : Type) (f : P0 → P1 → P2 → P3 → P4 → P5 → P6 → R) (a0 : P0) (a1 : P1) (a2 : P2) (a3 : P3) (a4 : P4) (a5 : P5) (a6 : P6),
      callNone7 f () (a0, a1, a2, a3, a4, a5, a6) = f a0 a1 a2 a3 a4 a5 a6) ∧
    (∀ (C R P0 P1 P2 P3 P4 P5 P6 : Type) (f : C → P0 → P1 → P2 → P3 → P4 → P5 → P6 → R) (c : C) (a0 : P0) (a1 : P1) (a2 : P2) (a3 : P3) (a4 : P4) (a5 : P5) (a6 : P6),
      callMut7 f c (a0, a1, a2, a3, a4, a5, a6) = f c a0 a1 a2 a3 a4 a5 a6) ∧
    (∀ (C R P0 P1 P2 P3 P4 P5 P6 : Type) (f : C → P0 → P1 → P2 → P3 → P4 → P5 → P6 → R) (c : C) (a0 : P0) (a1 : P1) (a2 : P2) (a3 : P3) (a4 : P4) (a5 : P5) (a6 : P6),
      callRef7 f c (a0, a1, a2, a3, a4, a5, a6) = f c a0 a1 a2 a3 a4 a5 a6) ∧
    (∀ (R P0 P1 P2 P3 P4 P5 P6 P7 : Type) (f : P0 → P1 → P2 → P3 → P4 → P5 → P6 → P7 → R) (a0 : P0) (a1 : P1) (a2 : P2) (a3 : P3) (a4 : P4) (a5 : P5) (a6 : P6) (a7 : P7),
      callNone8 f () (a0, a1, a2, a3, a4, a5, a6, a7) = f a0 a1 a2 a3 a4 a5 a6 a7) ∧
    (∀ (C R P0 P1 P2 P3 P4 P5 P6 P7 : Type) (f : C → P0 → P1 → P2 → P3 → P4 → P5 → P6 → P7 → R) (c : C) (a0 : P0) (a1 : P1) (a2 : P2) (a3 : P3) (a4 : P4) (a5 : P5) (a6 : P6) (a7 : P7),
      callMut8 f c (a0, a1, a2, a3, a4, a5, a6, a7) = f c a0 a1 a2 a3 a4 a5 a6 a7) ∧
    (∀ (C R P0 P1 P2 P3 P4 P5 P6 P7 : Type) (f : C → P0 → P1 → P2 → P3 → P4 → P5 → P6 → P7 → R) (c : C) (a0 : P0) (a1 : P1) (a2 : P2) (a3 : P3) (a4 : P4) (a5 : P5) (a6 : P6) (a7 : P7),
      callRef8 f c (a0, a1, a2, a3, a4, a5, a6, a7) = f c a0 a1 a2 a3 a4 a5 a6 a7) ∧
    (∀ (R P0 P1 P2 P3 P4 P5 P6 P7 P8 : Type) (f : P0 → P1 → P2 → P3 → P4 → P5 → P6 → P7 → P8 → R) (a0 : P0) (a1 : P1) (a2 : P2) (a3 : P3) (a4 : P4) (a5 : P5) (a6 : P6) (a7 : P7) (a8 : P8),
      callNone9 f () (a0, a1, a2, a3, a4, a5, a6, a7, a8) = f a0 a1 a2 a3 a4 a5 a6 a7 a8) ∧
    (∀ (C R P0 P1 P2 P3 P4 P5 P6 P7 P8 : Type) (f : C → P0 → P1 → P2 → P3 → P4 → P5 → P6 → P7 → P8 → R) (c : C) (a0 : P0) (a1 : P1) (a2 : P2) (a3 : P3) (a4 : P4) (a5 : P5) (a6 : P6) (a7 : P7) (a8 : P8),
      callMut9 f c (a0, a1, a2, a3, a4, a5, a6, a7, a8) = f c a0 a1 a2 a3 a4 a5 a6 a7 a8) ∧
    (∀ (C R P0 P1 P2 P3 P4 P5 P6 P7 P8 : Type) (f : C → P0 → P1 → P2 → P3 → P4 → P5 → P6 → P7 → P8 → R) (c : C) (a0 : P0) (a1 : P1) (a2 : P2) (a3 : P3) (a4 : P4) (a5 : P5) (a6 : P6) (a7 : P7) (a8 : P8),
      callRef9 f c (a0, a1, a2, a3, a4, a5, a6, a7, a8) = f c a0 a1 a2 a3 a4 a5 a6 a7 a8) ∧
    (∀ (R P0 P1 P2 P3 P4 P5 P6 P7 P8 P9 : Type) (f : P0 → P1 → P2 → P3 → P4 → P5 → P6 → P7 → P8 → P9 → R) (a0 : P0) (a1 : P1) (a2 : P2) (a3 : P3) (a4 : P4) (a5 : P5) (a6 : P6) (a7 : P7) (a8 : P8) (a9 : P9),
      callNone10 f () (a0, a1, a2, a3, a4, a5, a6, a7, a8, a9) = f a0 a1 a2 a3 a4 a5 a6 a7 a8 a9) ∧
    (∀ (C R P0 P1 P2 P3 P4 P5 P6 P7 P8 P9 : Type) (f : C → P0 → P1 → P2 → P3 → P4 → P5 → P6 → P7 → P8 → P9 → R) (c : C) (a0 : P0) (a1 : P1) (a2 : P2) (a3 : P3) (a4 : P4) (a5 : P5) (a6 : P6) (a7 : P7) (a8 : P8) (a9 : P9),
      callMut10 f c (a0, a1, a2, a3, a4, a5, a6, a7, a8, a9) = f c a0 a1 a2 a3 a4 a5 a6 a7 a8 a9) ∧
    (∀ (C R P0 P1 P2 P3 P4 P5 P6 P7 P8 P9 : Type) (f : C → P0 → P1 → P2 → P3 → P4 → P5 → P6 → P7 → P8 → P9 → R) (c : C) (a0 : P0) (a1 : P1) (a2 : P2) (a3 : P3) (a4 : P4) (a5 : P5) (a6 : P6) (a7 : P7) (a8 : P8) (a9 : P9),
      callRef10 f c (a0, a1, a2, a3, a4, a5, a6, a7, a8, a9) = f c a0 a1 a2 a3 a4 a5 a6 a7 a8 a9)
    := by
  refine ⟨?_, ?_, ?_, ?_, ?_, ?_, ?_, ?_, ?_, ?_, ?_, ?_, ?_, ?_, ?_, ?_, ?_, ?_, ?_, ?_, ?_, ?_, ?_, ?_, ?_, ?_, ?_, ?_, ?_, ?_, ?_, ?_, ?_
⟩ <;> intros <;> rfl

end GdextSignals

namespace GdextSignals

/-- C8: in a process that is not in editor (hot-reloadable) context,
`store_signal_connection` returns without touching any state, and starting
from process start the registry stays empty under every sequence of record,
prune, drain and host-free operations. -/
theorem C8_non_editor_registry_empty :
    (∀ (r : GId) (n : String) (c : Nat) (s : RegState), s.isEditor = false →
      store_signal_connection r n c s = s) ∧
    (∀ (ops : List RegOp) (v : List GId) (conns : List Conn),
      (runOps (initState false v conns) ops).registry = []) := by
  constructor
  · intro r n c s hEd
    simp [store_signal_connection, hEd]
  · intro ops v conns
    exact (runOps_non_editor_empty ops (initState false v conns) rfl rfl).1

/-- C8 witness: a concrete non-editor store call is the identity, and a
concrete operation sequence from a non-editor start leaves the registry empty. -/
theorem C8_non_editor_witness :
    (initState false [2] []).isEditor = false ∧
    store_signal_connection 2 "sig" 3 (initState false [2] []) = initState false [2] [] ∧
    (runOps (initState false [2] [])
      [RegOp.store 2 "sig" 3, RegOp.prune, RegOp.drain, RegOp.free 2]).registry = [] :=
  ⟨rfl, C8_non_editor_registry_empty.1 2 "sig" 3 (initState false [2] []) rfl,
   C8_non_editor_registry_empty.2 [RegOp.store 2 "sig" 3, RegOp.prune, RegOp.drain, RegOp.free 2]
     [2] []⟩

/-- C9: double disposal is unreachable: starting from process start, after any
sequence of record, prune, drain and host-free operations the `drop_weak`
disposal log is duplicate-free (each weak handle is disposed at most once),
the handles still present in the registry are pairwise distinct, and no
disposed handle is still present in the registry. -/
theorem C9_single_disposal (ops : List RegOp) (isEd : Bool) (v : List GId)
    (conns : List Conn) :
    ((runOps (initState isEd v conns) ops).disposed).Nodup ∧
    (registryHids (runOps (initState isEd v conns) ops).registry).Nodup ∧
    (∀ h ∈ (runOps (initState isEd v conns) ops).disposed,
      h ∉ registryHids (runOps (initState isEd v conns) ops).registry) := by
  obtain ⟨h1, h2, h3, _, _⟩ :=
    runOps_preserves_inv ops (initState isEd v conns) (initState_inv isEd v conns)
  exact ⟨h2, h1, h3⟩

end GdextSignals

namespace GdextDerive

/-- C10: for every struct input whose named fields fetch and field parsing
succeed, `derive_class_extension` returns `Ok` with an empty token stream —
whatever the group sort and the computed property impl produce, the derive
discards them and expands to no generated code. -/
theorem C10_derive_returns_empty_stream {F Fld : Type}
    (processField : F → Except String Fld)
    (sortFieldsByGroup : List Fld → List Fld)
    (makeClassExtensionPropertyImpl : String → List Fld → TokenStream)
    (item : VenialItem F) (ext : VenialStruct F) (nfs : List F) (flds : List Fld)
    (h1 : as_struct item = some ext)
    (h2 : named_fields ext = Except.ok nfs)
    (h3 : parse_fields processField nfs = Except.ok flds) :
    derive_class_extension processField sortFieldsByGroup
      makeClassExtensionPropertyImpl item = Except.ok [] := by
  simp [derive_class_extension, h1, h2, h3, Except.bind, Except.map, Except.pure,
    Bind.bind, Functor.map, Except.instMonad]

/-- C10 witness: a concrete unit struct derives to `Ok` with the empty token
stream. -/
theorem C10_derive_witness :
    as_struct (VenialItem.struct ⟨"Ext", VenialFieldsShape.unit⟩ : VenialItem Unit)
        = some ⟨"Ext", VenialFieldsShape.unit⟩ ∧
    named_fields (⟨"Ext", VenialFieldsShape.unit⟩ : VenialStruct Unit) = Except.ok [] ∧
    parse_fields (fun _ : Unit => Except.ok (0 : Nat)) ([] : List Unit) = Except.ok [] ∧
    derive_class_extension (fun _ : Unit => Except.ok (0 : Nat)) id (fun _ _ => [])
      (VenialItem.struct ⟨"Ext", VenialFieldsShape.unit⟩) = Except.ok [] :=
  ⟨rfl, rfl, rfl,
   C10_derive_returns_empty_stream (fun _ : Unit => Except.ok (0 : Nat)) id (fun _ _ => [])
     (VenialItem.struct ⟨"Ext", VenialFieldsShape.unit⟩) ⟨"Ext", VenialFieldsShape.unit⟩
     [] [] rfl rfl rfl⟩

end GdextDerive

namespace GdextSignals

/-- C2: one bulk drain empties the registry and runs `drop_weak` once per
present handle, and its per-entry processing is: an entry whose receiver is
invalid has its handle disposed and is skipped (no disconnect); an entry with
a valid receiver issues a native disconnect exactly when the host still
reports the (receiver, signal, callable) row as connected — removing that row
from the host table — and has its handle disposed regardless. -/
theorem C2_drain_processes_entries :
    (∀ s : RegState,
      (prune_stored_signal_connections s).registry = [] ∧
      (prune_stored_signal_connections s).disposed
          = s.disposed ++ registryHids s.registry) ∧
    (∀ (v : List GId) (conns : List Conn) (e : UnsafeConnectHandle)
        (rest : List UnsafeConnectHandle) (w : WeakGd),
      e.receiver_object = some w → w.obj ∉ v →
      drainLoop v (e :: rest) conns =
        ((drainLoop v rest conns).1, w.hid :: (drainLoop v rest conns).2.1,
          (drainLoop v rest conns).2.2)) ∧
    (∀ (v : List GId) (conns : List Conn) (e : UnsafeConnectHandle)
        (rest : List UnsafeConnectHandle) (w : WeakGd),
      e.receiver_object = some w → w.obj ∈ v →
      (w.obj, e.signal_name, e.callable) ∈ conns →
      drainLoop v (e :: rest) conns =
        ((drainLoop v rest (disconnectFirst conns (w.obj, e.signal_name, e.callable))).1,
          w.hid ::
            (drainLoop v rest (disconnectFirst conns (w.obj, e.signal_name, e.callable))).2.1,
          (w.obj, e.signal_name, e.callable) ::
            (drainLoop v rest (disconnectFirst conns (w.obj, e.signal_name, e.callable))).2.2)) ∧
    (∀ (v : List GId) (conns : List Conn) (e : UnsafeConnectHandle)
        (rest : List UnsafeConnectHandle) (w : WeakGd),
      e.receiver_object = some w → w.obj ∈ v →
      (w.obj, e.signal_name, e.callable) ∉ conns →
      drainLoop v (e :: rest) conns =
        ((drainLoop v rest conns).1, w.hid :: (drainLoop v rest conns).2.1,
          (drainLoop v rest conns).2.2)) := by
  refine ⟨?_, ?_, ?_, ?_⟩
  · intro s
    by_cases hE : s.registry.isEmpty
    · have hnil : s.registry = [] := List.isEmpty_iff.mp hE
      constructor
      · simp [prune_stored_signal_connections, hE, hnil]
      · simp [prune_stored_signal_connections, hE, hnil, registryHids]
    · constructor
      · simp [prune_stored_signal_connections, hE]
      · simp [prune_stored_signal_connections, hE, drainLoop_disposed_eq]
  · intro v conns e rest w hw hv
    simp [drainLoop, hw, hv]
  · intro v conns e rest w hw hv hc
    simp [drainLoop, hw, hv, hc]
  · intro v conns e rest w hw hv hc
    simp [drainLoop, hw, hv, hc]

/-- C2 witness: draining the two-entry fixture state empties the registry and
disposes both handles; a concrete invalid-receiver entry is disposed and
skipped, and a concrete valid, still-connected entry is disconnected and
disposed. -/
theorem C2_drain_witness :
    (prune_stored_signal_connections fixtureState).registry = [] ∧
    (prune_stored_signal_connections fixtureState).disposed
        = fixtureState.disposed ++ registryHids fixtureState.registry ∧
    fixtureEntryStale.receiver_object = some { obj := 9, hid := 1 } ∧
    (9 : GId) ∉ ([1] : List GId) ∧
    drainLoop [1] [fixtureEntryStale] [] =
      ((drainLoop [1] ([] : List UnsafeConnectHandle) []).1,
        1 :: (drainLoop [1] ([] : List UnsafeConnectHandle) []).2.1,
        (drainLoop [1] ([] : List UnsafeConnectHandle) []).2.2) ∧
    fixtureEntryLive.receiver_object = some { obj := 1, hid := 0 } ∧
    (1 : GId) ∈ ([1] : List GId) ∧
    ((1 : GId), "a", (1 : Nat)) ∈ ([(1, "a", 1)] : List Conn) ∧
    drainLoop [1] [fixtureEntryLive] [(1, "a", 1)] =
      ((drainLoop [1] ([] : List UnsafeConnectHandle)
          (disconnectFirst [(1, "a", 1)] (1, "a", 1))).1,
        0 :: (drainLoop [1] ([] : List UnsafeConnectHandle)
          (disconnectFirst [(1, "a", 1)] (1, "a", 1))).2.1,
        ((1 : GId), "a", (1 : Nat)) :: (drainLoop [1] ([] : List UnsafeConnectHandle)
          (disconnectFirst [(1, "a", 1)] (1, "a", 1))).2.2) :=
  ⟨(C2_drain_processes_entries.1 fixtureState).1,
   (C2_drain_processes_entries.1 fixtureState).2,
   rfl, by decide,
   C2_drain_processes_entries.2.1 [1] [] fixtureEntryStale []
     { obj := 9, hid := 1 } rfl (by decide),
   rfl, by decide, by simp,
   C2_drain_processes_entries.2.2.1 [1] [(1, "a", 1)] fixtureEntryLive []
     { obj := 1, hid := 0 } rfl (by decide) (by simp [fixtureEntryLive])⟩

end GdextSignals

namespace GdextSignals

/-- C3: an editor-mode record call on a registry of N entries of which M have
an invalidated receiver first prunes, then appends, leaving exactly
N − M + 1 entries; each invalidated handle has been disposed and no longer
appears among the registry's handles. -/
theorem C3_record_prunes_then_appends (r : GId) (n : String) (c : Nat)
    (s : RegState) (hEd : s.isEditor = true)
    (_hSome : ∀ e ∈ s.registry, e.receiver_object.isSome)
    (hNodup : (registryHids s.registry).Nodup)
    (hFresh : ∀ x ∈ registryHids s.registry, x < s.nextHid) :
    (store_signal_connection r n c s).registry.length
        = s.registry.length
          - (s.registry.filter (isStale s.host.validObjs)).length + 1 ∧
    (∀ e ∈ s.registry, ∀ w : WeakGd, e.receiver_object = some w →
      w.obj ∉ s.host.validObjs →
      w.hid ∈ (store_signal_connection r n c s).disposed ∧
      w.hid ∉ registryHids (store_signal_connection r n c s).registry) := by
  have hreg : (store_signal_connection r n c s).registry
      = (prune_stale_connections s.host.validObjs s.registry).1 ++
        [{ receiver_object := some { obj := r, hid := s.nextHid },
           signal_name := n, callable := c }] := by
    simp [store_signal_connection, hEd]
  have hdisp : (store_signal_connection r n c s).disposed
      = s.disposed ++ (prune_stale_connections s.host.validObjs s.registry).2 := by
    simp [store_signal_connection, hEd]
  obtain ⟨hKN, hPN, hPdisK⟩ := prune_pair_nodup s.host.validObjs s.registry hNodup
  constructor
  · rw [hreg, List.length_append, prune_keep_eq_filter]
    have hlen := List.length_eq_length_filter_add
      (l := s.registry) (isStale s.host.validObjs)
    simp only [List.length_singleton]
    omega
  · intro e he w hw hob
    have hstale : isStale s.host.validObjs e = true := by
      simp [isStale, hw, hob]
    have hmemP2 : w.hid ∈ (prune_stale_connections s.host.validObjs s.registry).2 := by
      rw [prune_disposed_eq_filter]
      exact List.mem_filterMap.mpr ⟨e, List.mem_filter.mpr ⟨he, hstale⟩, by simp [hw]⟩
    have hmemReg : w.hid ∈ registryHids s.registry :=
      List.mem_filterMap.mpr ⟨e, he, by simp [hw]⟩
    refine ⟨?_, ?_⟩
    · rw [hdisp]
      exact List.mem_append_right _ hmemP2
    · rw [hreg]
      have hids' : registryHids
          ((prune_stale_connections s.host.validObjs s.registry).1 ++
            [{ receiver_object := some { obj := r, hid := s.nextHid },
               signal_name := n, callable := c }])
          = registryHids (prune_stale_connections s.host.validObjs s.registry).1
            ++ [s.nextHid] := by
        simp [registryHids]
      rw [hids']
      intro hmem
      rcases List.mem_append.mp hmem with hmem | hmem
      · exact hPdisK w.hid hmemP2 hmem
      · have heq : w.hid = s.nextHid := by simpa using hmem
        exact Nat.lt_irrefl _ (heq ▸ hFresh w.hid hmemReg)

/-- C3 witness: recording into the two-entry fixture state (one live, one
invalidated receiver) leaves 2 − 1 + 1 = 2 entries, and the invalidated
handle is disposed and gone from the registry. -/
theorem C3_record_witness :
    fixtureState.isEditor = true ∧
    (∀ e ∈ fixtureState.registry, e.receiver_object.isSome) ∧
    (registryHids fixtureState.registry).Nodup ∧
    (∀ x ∈ registryHids fixtureState.registry, x < fixtureState.nextHid) ∧
    (store_signal_connection 3 "c" 7 fixtureState).registry.length
        = fixtureState.registry.length
          - (fixtureState.registry.filter (isStale fixtureState.host.validObjs)).length
          + 1 ∧
    (1 : HandleId) ∈ (store_signal_connection 3 "c" 7 fixtureState).disposed ∧
    (1 : HandleId) ∉ registryHids (store_signal_connection 3 "c" 7 fixtureState).registry := by
  have hS : ∀ e ∈ fixtureState.registry, e.receiver_object.isSome := by
    intro e he
    fin_cases he <;> rfl
  have hN : (registryHids fixtureState.registry).Nodup := by
    simp [fixtureState, fixtureEntryLive, fixtureEntryStale, registryHids]
  have hF : ∀ x ∈ registryHids fixtureState.registry, x < fixtureState.nextHid := by
    intro x hx
    simp [fixtureState, fixtureEntryLive, fixtureEntryStale, registryHids] at hx
    rcases hx with hx | hx <;> simp [fixtureState, hx]
  have h := C3_record_prunes_then_appends 3 "c" 7 fixtureState rfl hS hN hF
  have h2 := h.2 fixtureEntryStale (by simp [fixtureState])
    { obj := 9, hid := 1 } rfl (by decide)
  exact ⟨rfl, hS, hN, hF, h.1, h2.1, h2.2⟩

end GdextSignals
